import Mathlib

/-!
Verification of the evaluation-payload contract of the teacher_ai_asistant
repository: the Response Normalizer (`normalizeEvaluation`), the HTTP error
surfacing (`parseResponse` / `handleLessonUpload`) from
`dashboard_ui/src/app/page.tsx` (backend-wired variant), and the Mock
Evaluation Generator / Metadata Resolver (`buildMockScore`,
`randomizeDomainScores`, `describeScoreBand`,
`extractLessonOverviewOverrides`) from `dashboard_ui/src/types/evaluation.ts`
(demo-mode variant), over a shallow embedding of the JavaScript runtime
values involved.
-/

namespace TeacherAI

/-- Shallow embedding of a JSON / JavaScript runtime value.  Objects keep
their fields as an ordered association list, matching JavaScript property
insertion order.  Numbers are rationals (no claim here depends on
floating-point rounding artifacts). -/
inductive Json where
  | null : Json
  | bool (b : Bool) : Json
  | num (q : ℚ) : Json
  | str (s : String) : Json
  | arr (elems : List Json) : Json
  | obj (fields : List (String × Json)) : Json

/-- JavaScript falsiness of a value: `null`, `false`, `0` and `""` are falsy,
every array and object is truthy.  (`undefined` is modelled as `Option.none`
one level up; rationals cannot represent `NaN`.) -/
def jsFalsy : Json → Bool
  | .null => true
  | .bool b => !b
  | .num q => q == 0
  | .str s => s == ""
  | .arr _ => false
  | .obj _ => false

/-- Falsiness of a possibly-`undefined` value (`none` = `undefined`). -/
def optFalsy : Option Json → Bool
  | none => true
  | some j => jsFalsy j

/-- First-occurrence lookup in an object's field list.  JavaScript objects
have unique keys at runtime, so first- and last-occurrence lookup agree on
every value this development feeds in; theorems about arbitrary candidate
objects carry a `Nodup` hypothesis recording that uniqueness. -/
def lookupField : String → List (String × Json) → Option Json
  | _, [] => none
  | k, (k', v) :: rest => if k' = k then some v else lookupField k rest

/-- JavaScript property access `j[k]` for a string key: defined on objects,
`undefined` (`none`) on every other value. -/
def jsGet : Json → String → Option Json
  | .obj fs, k => lookupField k fs
  | _, _ => none

/-- The own enumerable properties contributed by `...j` inside an object
literal: an object's fields, a string's or array's indexed elements, and
nothing for `null`, booleans and numbers. -/
def spreadFields : Json → List (String × Json)
  | .obj fs => fs
  | .str s => (s.data.enum).map (fun p => (toString p.1, Json.str p.2.toString))
  | .arr xs => (xs.enum).map (fun p => (toString p.1, p.2))
  | _ => []

/-- Property assignment on a field list: an existing key is updated in
place, a fresh key is appended (JavaScript insertion-order semantics). -/
def setField (fs : List (String × Json)) (k : String) (v : Json) : List (String × Json) :=
  if fs.any (fun p => p.1 = k) then
    fs.map (fun p => if p.1 = k then (k, v) else p)
  else
    fs ++ [(k, v)]

/-- Folding the fields of `b` over `a`: the semantics of the second spread
in an object literal `\x7b ...a, ...b \x7d`. -/
def mergeFields (a b : List (String × Json)) : List (String × Json) :=
  b.foldl (fun acc kv => setField acc kv.1 kv.2) a

/-- The object literal `\x7b ...a, ...b \x7d`. -/
def objSpread (a b : Json) : Json :=
  .obj (mergeFields (spreadFields a) (spreadFields b))

theorem any_key_iff (fs : List (String × Json)) (k : String) :
    (fs.any fun p => p.1 = k) = true ↔ k ∈ fs.map Prod.fst := by
  induction fs with
  | nil => simp
  | cons hd tl ih =>
    simp only [List.any_cons, List.map_cons, List.mem_cons, Bool.or_eq_true,
      decide_eq_true_eq, ih]
    constructor
    · rintro (h | h)
      exacts [Or.inl h.symm, Or.inr h]
    · rintro (h | h)
      exacts [Or.inl h.symm, Or.inr h]

theorem lookupField_eq_none_of_not_mem {k : String} {fs : List (String × Json)}
    (h : k ∉ fs.map Prod.fst) : lookupField k fs = none := by
  induction fs with
  | nil => rfl
  | cons hd tl ih =>
    simp only [List.map_cons, List.mem_cons, not_or] at h
    rw [lookupField, if_neg (fun he => h.1 he.symm), ih h.2]

theorem lookupField_update_self (fs : List (String × Json)) (k : String) (v : Json)
    (h : k ∈ fs.map Prod.fst) :
    lookupField k (fs.map fun p => if p.1 = k then (k, v) else p) = some v := by
  induction fs with
  | nil => simp at h
  | cons hd tl ih =>
    by_cases hk : hd.1 = k
    · simp only [List.map_cons, if_pos hk]
      rw [lookupField, if_pos rfl]
    · simp only [List.map_cons, List.mem_cons] at h
      have h' : k ∈ tl.map Prod.fst := h.resolve_left (fun he => hk he.symm)
      simp only [List.map_cons, if_neg hk]
      rw [lookupField, if_neg hk]
      exact ih h'

theorem lookupField_update_ne (fs : List (String × Json)) (k k' : String) (v : Json)
    (h : k' ≠ k) :
    lookupField k' (fs.map fun p => if p.1 = k then (k, v) else p) = lookupField k' fs := by
  induction fs with
  | nil => rfl
  | cons hd tl ih =>
    by_cases hk : hd.1 = k
    · have hne : ¬ k = k' := fun he => h he.symm
      simp only [List.map_cons, if_pos hk]
      rw [lookupField, if_neg hne, ih, lookupField,
        if_neg (fun he : hd.1 = k' => hne (hk ▸ he))]
    · simp only [List.map_cons, if_neg hk]
      by_cases hk' : hd.1 = k'
      · rw [lookupField, if_pos hk', lookupField, if_pos hk']
      · rw [lookupField, if_neg hk', ih, lookupField, if_neg hk']

theorem lookupField_append_self (fs : List (String × Json)) (k : String) (v : Json)
    (h : k ∉ fs.map Prod.fst) :
    lookupField k (fs ++ [(k, v)]) = some v := by
  induction fs with
  | nil => simp [lookupField]
  | cons hd tl ih =>
    simp only [List.map_cons, List.mem_cons, not_or] at h
    rw [List.cons_append, lookupField, if_neg (fun he => h.1 he.symm), ih h.2]

theorem lookupField_append_ne (fs : List (String × Json)) (k k' : String) (v : Json)
    (h : k' ≠ k) :
    lookupField k' (fs ++ [(k, v)]) = lookupField k' fs := by
  induction fs with
  | nil => simp [lookupField, if_neg (fun he : k = k' => h he.symm)]
  | cons hd tl ih =>
    rw [List.cons_append, lookupField, lookupField]
    by_cases hk' : hd.1 = k'
    · simp [hk']
    · rw [if_neg hk', if_neg hk', ih]

theorem lookupField_setField_self (fs : List (String × Json)) (k : String) (v : Json) :
    lookupField k (setField fs k v) = some v := by
  unfold setField
  by_cases hmem : (fs.any fun p => p.1 = k) = true
  · rw [if_pos hmem]
    exact lookupField_update_self fs k v ((any_key_iff fs k).mp hmem)
  · rw [if_neg hmem]
    exact lookupField_append_self fs k v (fun hin => hmem ((any_key_iff fs k).mpr hin))

theorem lookupField_setField_ne (fs : List (String × Json)) (k k' : String) (v : Json)
    (h : k' ≠ k) : lookupField k' (setField fs k v) = lookupField k' fs := by
  unfold setField
  by_cases hmem : (fs.any fun p => p.1 = k) = true
  · rw [if_pos hmem]; exact lookupField_update_ne fs k k' v h
  · rw [if_neg hmem]; exact lookupField_append_ne fs k k' v h

/-- `firstSome x y` is `x` when `x` is `some`, else `y`: the shape of the
per-field resolution produced by a spread merge. -/
def firstSome (x y : Option Json) : Option Json :=
  match x with
  | some v => some v
  | none => y

@[simp] theorem firstSome_some (v : Json) (y : Option Json) :
    firstSome (some v) y = some v := rfl

@[simp] theorem firstSome_none (y : Option Json) : firstSome none y = y := rfl

/-- Per-field semantics of the spread merge: when the overriding field list
has unique keys (as every JavaScript runtime object does), a key resolves to
the override when present there and to the base otherwise. -/
theorem lookupField_mergeFields :
    ∀ (b : List (String × Json)), (b.map Prod.fst).Nodup →
      ∀ (a : List (String × Json)) (k : String),
        lookupField k (mergeFields a b) = firstSome (lookupField k b) (lookupField k a) := by
  intro b
  induction b with
  | nil => intro _ a k; rfl
  | cons hd tl ih =>
    intro hb a k
    rw [List.map_cons, List.nodup_cons] at hb
    show lookupField k (mergeFields (setField a hd.1 hd.2) tl) = _
    rw [ih hb.2]
    by_cases hk : k = hd.1
    · subst hk
      rw [lookupField_setField_self, lookupField_eq_none_of_not_mem hb.1]
      rw [lookupField, if_pos rfl]
      rfl
    · rw [lookupField_setField_ne _ _ _ _ hk]
      rw [lookupField, if_neg (fun he : hd.1 = k => hk he.symm)]

/-! ## Typed evaluation schema (dashboard_ui/src/types/evaluation.ts) -/

/-- The `score_1_to_4_or_NA` field: `number | "NA"`. -/
inductive ScoreValue where
  | score (q : ℚ) : ScoreValue
  | NA : ScoreValue
deriving DecidableEq

/-- `LessonOverview` from `types/evaluation.ts`. -/
structure LessonOverview where
  teacher_name : String
  school_name : String
  region : String
  age_group : String
  subject : String
  lesson_type : String
  curriculum_goal_inferred_or_given : String
  overall_impression : String
deriving DecidableEq

/-- `DomainScore` from `types/evaluation.ts` (`subject_specific_notes` is
optional). -/
structure DomainScore where
  score_1_to_4_or_NA : ScoreValue
  evidence : String
  suggestions : List String
  subject_specific_notes : Option String := none
deriving DecidableEq

/-- `GlobalRating` from `types/evaluation.ts`. -/
structure GlobalRating where
  overall_score_average_or_band : String
  top_strengths : List String
  priority_areas_for_growth : List String
  concrete_next_steps_for_teacher : List String
deriving DecidableEq

/-- `LimitsOfInference` from `types/evaluation.ts`. -/
structure LimitsOfInference where
  audio_only_constraints : String
  insufficient_evidence_domains : List String
deriving DecidableEq

/-- `EvaluationPayload` from `types/evaluation.ts`; `domain_scores` is a
`Record<string, DomainScore>`, kept in insertion order. -/
structure EvaluationPayload where
  lesson_overview : LessonOverview
  domain_scores : List (String × DomainScore)
  global_rating : GlobalRating
  limits_of_inference : LimitsOfInference
deriving DecidableEq

/-! ## The fixed sample payload (dashboard_ui/src/data/sample-evaluation.ts) -/

/-- `sampleEvaluation` from `data/sample-evaluation.ts`: the fixed fallback
payload returned whenever a candidate response is structurally unusable. -/
def sampleEvaluation : EvaluationPayload :=
  { lesson_overview :=
      { teacher_name := "Jana Nováková"
        school_name := "ZŠ Komenského"
        region := "Prague, Czech Republic"
        age_group := "Upper primary (9–11 years)"
        subject := "Mathematics"
        lesson_type := "Introduction of new concept"
        curriculum_goal_inferred_or_given :=
          "Students will understand the concept of equivalent fractions and be able to identify and represent them using visual models and numerical notation."
        overall_impression :=
          "In this Mathematics lesson, Jana Nováková at ZŠ Komenského in Prague, Czech Republic provided a generally clear explanation of equivalent fractions and maintained a positive, orderly classroom climate. Many students had chances to respond, though there were missed opportunities to deepen reasoning and involve a wider range of voices." }
    domain_scores :=
      [ ("instructional_clarity_and_structure",
          { score_1_to_4_or_NA := .score 3
            evidence :=
              "At the start, the teacher stated, \"Dnes se budeme učit o zlomcích, které jsou stejné, i když vypadají jinak,\" and then modeled several examples (1/2 = 2/4 = 4/8). Instructions for the worksheet were mostly understood; only one student asked for clarification."
            suggestions :=
              [ "End the lesson with a short verbal summary or exit question to explicitly revisit the main idea of equivalent fractions.",
                "Before starting independent work, ask one or two students to restate the task in their own words to confirm understanding." ] }),
        ("student_cognitive_engagement",
          { score_1_to_4_or_NA := .score 3
            evidence :=
              "Multiple students volunteered answers like \"dvě čtvrtiny je to samé jako jedna polovina\" and a few explained why. However, several exchanges were limited to the teacher asking, \"Kolik je to?\" and students giving only the final number without explanation."
            suggestions :=
              [ "More frequently prompt students to explain how they know (e.g., \"Proč to tak je?\", \"Jak jsi na to přišel?\").",
                "Include at least one short pair-share where all students briefly explain their reasoning to a partner before answering aloud." ] }),
        ("classroom_management_and_pacing",
          { score_1_to_4_or_NA := .score 4
            evidence :=
              "Transitions were smooth: when the teacher said, \"Teď si vezměte prosím pracovní list,\" rustling was brief and students were ready within about 10 seconds. Two instances of side talk were addressed calmly with, \"Teď potřebuju, abyste poslouchali,\" and learning resumed immediately."
            suggestions :=
              [ "Maintain the same calm tone and clear directions as complexity of tasks increases in future lessons.",
                "Consider building in a brief mid-lesson stretch or quick game if you notice energy dropping during longer explanation segments." ] }),
        ("classroom_climate_and_tone",
          { score_1_to_4_or_NA := .score 4
            evidence :=
              "The teacher consistently used polite forms (\"prosím\", \"děkuju\") and responded to an incorrect answer with, \"To je zajímavý nápad, pojďme se na to podívat společně,\" rather than dismissing it. Students laughed with the teacher during a light moment about cutting a pizza into \"sto kousků,\" indicating comfort and rapport."
            suggestions :=
              [ "Continue normalizing mistakes as part of learning, explicitly saying that errors help the whole class understand fractions better.",
                "Occasionally name the positive climate for students (e.g., \"Líbí se mi, že se nebojíte zkusit odpovědět, i když si nejste jistí.\")." ] }),
        ("questions_feedback_and_checks",
          { score_1_to_4_or_NA := .score 2
            evidence :=
              "The teacher frequently asked recall-style questions like \"Kolik je tohle?\" and often accepted a single correct answer before moving on. Feedback was mostly evaluative (\"Ano, správně\") with few follow-up questions probing reasoning."
            suggestions :=
              [ "After a correct answer, follow up with a \"why\" question (e.g., \"Proč je 2/4 stejné jako 1/2?\") to deepen understanding.",
                "Use quick whole-class checks such as \"Zvedněte ruku, pokud si myslíte, že tyto dva zlomky jsou stejné\" to see how many students understand before continuing." ] }),
        ("equity_and_student_voice",
          { score_1_to_4_or_NA := .score 2
            evidence :=
              "The same three students (voices identified as at least two boys and one girl) answered most questions. The teacher occasionally said, \"Někdo jiný?\", but often accepted the first volunteer. No explicit invitations were made to quieter students or to call on different groups."
            suggestions :=
              [ "Intentionally vary participation by sometimes calling on students who have not yet spoken (e.g., drawing names, using random sticks).",
                "Use think-pair-share so all students verbalize ideas in pairs before inviting a few to share with the whole class." ] }),
        ("age_appropriateness_of_language",
          { score_1_to_4_or_NA := .score 4
            evidence :=
              "The teacher used concrete examples such as sharing a chocolate bar and pizza to illustrate fractions and avoided overly technical terms. When introducing \"ekvivalentní zlomky,\" she immediately paraphrased: \"To znamená zlomky, které ukazují stejný kus, jen jiným způsobem.\""
            suggestions :=
              [ "Continue pairing new terminology with simple restatements and real-life examples.",
                "Ask students to generate their own everyday examples of equivalent fractions to further connect to their experience." ] }),
        ("subject_specific_pedagogy",
          { score_1_to_4_or_NA := .score 3
            evidence :=
              "The teacher connected visual fraction strips to numeric representations (1/2, 2/4, 4/8) and asked why they represent the same quantity. However, most practice tasks involved straightforward matching of equivalent fractions without open-ended problem-solving."
            subject_specific_notes := some
              "For upper primary mathematics, the lesson included core fraction concepts and some conceptual linking between visuals and symbols. There was limited opportunity for students to reason about non-trivial cases or to create their own examples."
            suggestions :=
              [ "Add at least one task where students must decide which of several fractions are equivalent and explain their reasoning in words.",
                "Include a challenge problem (e.g., \x27Vymysli tři různé zlomky, které jsou stejné jako 3/6\x27) to promote deeper mathematical thinking for advanced students." ] }) ]
    global_rating :=
      { overall_score_average_or_band := "Effective (average ≈ 3.0 / 4)"
        top_strengths :=
          [ "Maintains a warm, respectful classroom climate where students appear comfortable answering and making mistakes.",
            "Manages time and behavior effectively, keeping the lesson moving with minimal loss of learning time." ]
        priority_areas_for_growth :=
          [ "Increase the depth and variety of questions to elicit more student reasoning about equivalent fractions.",
            "Broaden participation so that more than the same few students regularly contribute ideas aloud." ]
        concrete_next_steps_for_teacher :=
          [ "In the next fractions lesson, plan three specific follow-up prompts (e.g., \x27Jak to víš?\x27, \x27Můžeš to vysvětlit jinak?\x27) to use after correct answers.",
            "Introduce a simple participation routine, such as think-pair-share, at least once per lesson to give all students time to talk.",
            "Over the next 4–6 weeks, gradually add more open problems where students must justify which fractions are or are not equivalent, and share solutions in pairs or small groups before whole-class discussion." ] }
    limits_of_inference :=
      { audio_only_constraints :=
          "From audio alone it is not possible to evaluate the quality of written work, visual fraction representations on the board, seating arrangement, or whether all students are following along silently. Non-verbal cues such as facial expressions and hand-raising cannot be observed."
        insufficient_evidence_domains :=
          [ "No evidence was available about how student written work was checked or marked during the lesson (assessment of individual worksheets).",
            "It is not clear from audio only how many students were off-task visually (e.g., drawing, looking away) during explanations." ] } }

/-! ## JSON views of the typed schema -/

/-- JSON value of a `score_1_to_4_or_NA` field. -/
def scoreValueJson : ScoreValue → Json
  | .score q => .num q
  | .NA => .str "NA"

/-- The field list of a `LessonOverview` object, keys exactly as in
`types/evaluation.ts`. -/
def lessonOverviewFields (o : LessonOverview) : List (String × Json) :=
  [ ("teacher_name", .str o.teacher_name),
    ("school_name", .str o.school_name),
    ("region", .str o.region),
    ("age_group", .str o.age_group),
    ("subject", .str o.subject),
    ("lesson_type", .str o.lesson_type),
    ("curriculum_goal_inferred_or_given", .str o.curriculum_goal_inferred_or_given),
    ("overall_impression", .str o.overall_impression) ]

/-- The field list of a `DomainScore` object. -/
def domainScoreFields (d : DomainScore) : List (String × Json) :=
  [ ("score_1_to_4_or_NA", scoreValueJson d.score_1_to_4_or_NA),
    ("evidence", .str d.evidence),
    ("suggestions", .arr (d.suggestions.map .str)) ] ++
  (match d.subject_specific_notes with
   | some n => [("subject_specific_notes", Json.str n)]
   | none => [])

/-- The field list of a `GlobalRating` object. -/
def globalRatingFields (g : GlobalRating) : List (String × Json) :=
  [ ("overall_score_average_or_band", .str g.overall_score_average_or_band),
    ("top_strengths", .arr (g.top_strengths.map .str)),
    ("priority_areas_for_growth", .arr (g.priority_areas_for_growth.map .str)),
    ("concrete_next_steps_for_teacher", .arr (g.concrete_next_steps_for_teacher.map .str)) ]

/-- The field list of a `LimitsOfInference` object. -/
def limitsOfInferenceFields (l : LimitsOfInference) : List (String × Json) :=
  [ ("audio_only_constraints", .str l.audio_only_constraints),
    ("insufficient_evidence_domains", .arr (l.insufficient_evidence_domains.map .str)) ]

/-- An `EvaluationPayload` at the JSON level: the four top-level sections of
the object the dashboard receives.  Keeping the struct (rather than one
`Json.obj`) records that all four keys are always present in a normalized
payload; each section is raw `Json` because the normalizer passes candidate
values through without validating their shape. -/
structure JsonPayload where
  lesson_overview : Json
  domain_scores : Json
  global_rating : Json
  limits_of_inference : Json

/-- The JSON view of a typed payload. -/
def evaluationJsonPayload (p : EvaluationPayload) : JsonPayload :=
  { lesson_overview := .obj (lessonOverviewFields p.lesson_overview)
    domain_scores := .obj (p.domain_scores.map fun kd => (kd.1, Json.obj (domainScoreFields kd.2)))
    global_rating := .obj (globalRatingFields p.global_rating)
    limits_of_inference := .obj (limitsOfInferenceFields p.limits_of_inference) }

/-- The sample payload as the JSON object the dashboard code manipulates. -/
def sampleEvaluationJ : JsonPayload := evaluationJsonPayload sampleEvaluation

/-! ## Response Normalizer (`normalizeEvaluation`, dashboard page) -/

/-- One unfolding of `normalizeEvaluation` from the dashboard page.  `raw`
is the argument (`none` = `undefined`), `parse` models `JSON.parse`
(returning `none` when it would throw), and `recur` is the recursive call
made after successfully parsing a string argument.

```ts
function normalizeEvaluation(raw: unknown): EvaluationPayload {
  if (!raw) return sampleEvaluation;
  if (typeof raw === "string") {
    try { return normalizeEvaluation(JSON.parse(raw)); }
    catch { return sampleEvaluation; }
  }
  const candidate = raw as Partial<EvaluationPayload>;
  if (!candidate.lesson_overview || !candidate.domain_scores ||
      !candidate.global_rating || !candidate.limits_of_inference) {
    return sampleEvaluation;
  }
  return {
    lesson_overview: { ...sampleEvaluation.lesson_overview, ...candidate.lesson_overview },
    domain_scores: (candidate.domain_scores as DomainScores) ?? sampleEvaluation.domain_scores,
    global_rating: { ...sampleEvaluation.global_rating, ...candidate.global_rating },
    limits_of_inference: { ...sampleEvaluation.limits_of_inference, ...candidate.limits_of_inference }
  };
}
``` -/
def normStep (parse : String → Option Json) (recur : Option Json → JsonPayload)
    (raw : Option Json) : JsonPayload :=
  match raw with
  | none => sampleEvaluationJ
  | some r =>
    if jsFalsy r then sampleEvaluationJ
    else
      match r with
      | .str s =>
        (match parse s with
         | some j => recur (some j)
         | none => sampleEvaluationJ)
      | candidate =>
        if optFalsy (jsGet candidate "lesson_overview") ||
           optFalsy (jsGet candidate "domain_scores") ||
           optFalsy (jsGet candidate "global_rating") ||
           optFalsy (jsGet candidate "limits_of_inference") then
          sampleEvaluationJ
        else
          { lesson_overview :=
              objSpread sampleEvaluationJ.lesson_overview
                ((jsGet candidate "lesson_overview").getD .null)
            domain_scores :=
              (jsGet candidate "domain_scores").getD sampleEvaluationJ.domain_scores
            global_rating :=
              objSpread sampleEvaluationJ.global_rating
                ((jsGet candidate "global_rating").getD .null)
            limits_of_inference :=
              objSpread sampleEvaluationJ.limits_of_inference
                ((jsGet candidate "limits_of_inference").getD .null) }

/-- `normalizeEvaluation`, with a fuel bound on the number of nested
string-decoding recursions.  Real `JSON.parse` strictly shrinks a string
that decodes to another string, so the recursion depth is finite and any
`fuel` at least that depth agrees with the TypeScript function; the
fuel-exhausted case returns the same fallback the function uses on every
other failure and is unreachable for an actual JSON parser. -/
def normalizeEvaluation (parse : String → Option Json) : Nat → Option Json → JsonPayload
  | 0, raw => normStep parse (fun _ => sampleEvaluationJ) raw
  | fuel + 1, raw => normStep parse (normalizeEvaluation parse fuel) raw

/-! ## Mock Evaluation Generator (`types/evaluation.ts`, demo-mode page) -/

/-- Rounding to one decimal place, the arithmetic of `x.toFixed(1)` for the
values produced here (ties round away from zero, i.e. up, for the positive
values involved). -/
def roundTo1 (x : ℚ) : ℚ := ((round (x * 10) : ℤ) : ℚ) / 10

/-- `buildMockScore` applied to one draw `r` of `Math.random()` (so `0 ≤ r < 1`):

```ts
function buildMockScore(): number {
  const raw = Number((Math.random() * 2 + 2).toFixed(1));
  return Math.min(4, Math.max(1, raw));
}
``` -/
def buildMockScore (r : ℚ) : ℚ :=
  min 4 (max 1 (roundTo1 (r * 2 + 2)))

/-- `randomizeDomainScores`: replaces every domain's score with a freshly
generated mock score, one independent `Math.random()` draw per domain;
`rand i` is the draw consumed by the `i`-th domain entry. -/
def randomizeDomainScores (rand : Nat → ℚ) (baseScores : List (String × DomainScore)) :
    List (String × DomainScore) :=
  (baseScores.enum).map fun p =>
    (p.2.1, { p.2.2 with score_1_to_4_or_NA := .score (buildMockScore (rand p.1)) })

/-- `calculateAverageFromDomainScores`: mean of the numeric scores, `0` when
there are none. -/
def calculateAverageFromDomainScores (domainScores : List (String × DomainScore)) : ℚ :=
  let numericScores := domainScores.filterMap fun kd =>
    match kd.2.score_1_to_4_or_NA with
    | .score q => some q
    | .NA => none
  if numericScores.length = 0 then 0
  else numericScores.sum / numericScores.length

/-- `describeScoreBand` from `types/evaluation.ts`:

```ts
function describeScoreBand(averageScore: number): string {
  if (averageScore >= 3.5) return "Exemplary";
  if (averageScore >= 3) return "Effective";
  if (averageScore >= 2.25) return "Developing";
  return "Unsatisfactory";
}
``` -/
def describeScoreBand (averageScore : ℚ) : String :=
  if averageScore ≥ 3.5 then "Exemplary"
  else if averageScore ≥ 3 then "Effective"
  else if averageScore ≥ 2.25 then "Developing"
  else "Unsatisfactory"

/-! ## Metadata Resolver (`extractLessonOverviewOverrides`) -/

/-- Is `typeof v === "object"` true?  (Objects, arrays and `null`.) -/
def jsTypeofObject : Json → Bool
  | .obj _ => true
  | .arr _ => true
  | .null => true
  | _ => false

/-- JavaScript `value.trim()`: whitespace stripped from both ends. -/
def jsTrim (s : String) : String :=
  .mk (((s.data.dropWhile Char.isWhitespace).reverse.dropWhile Char.isWhitespace).reverse)

/-- The `assignString` helper inside `extractLessonOverviewOverrides`: the
input's value at `key` when it is a string whose trim is non-empty (the
trimmed value is used), absent otherwise. -/
def assignString (record : Json) (key : String) : Option String :=
  match jsGet record key with
  | some (.str s) => if jsTrim s = "" then none else some (jsTrim s)
  | _ => none

/-- `Partial<LessonOverview>` as produced by `extractLessonOverviewOverrides`:
only these seven fields can be assigned (there is no `overall_impression`
override, and no `curriculum_goal` key exists in `LessonOverview`). -/
structure LessonOverviewOverrides where
  teacher_name : Option String := none
  school_name : Option String := none
  region : Option String := none
  age_group : Option String := none
  subject : Option String := none
  lesson_type : Option String := none
  curriculum_goal_inferred_or_given : Option String := none

/-- `extractLessonOverviewOverrides`: builds the overrides from a
possibly-`null` metadata record; the input key `curriculum_goal` lands in
the output field `curriculum_goal_inferred_or_given`. -/
def extractLessonOverviewOverrides (metadata : Option Json) : LessonOverviewOverrides :=
  match metadata with
  | none => {}
  | some m =>
    if jsFalsy m || !jsTypeofObject m then {}
    else
      { teacher_name := assignString m "teacher_name"
        school_name := assignString m "school_name"
        region := assignString m "region"
        age_group := assignString m "age_group"
        subject := assignString m "subject"
        lesson_type := assignString m "lesson_type"
        curriculum_goal_inferred_or_given := assignString m "curriculum_goal" }

/-- The object literal `\x7b ...base, ...overrides \x7d` on a
`LessonOverview`: each override wins over the base field when present. -/
def applyLessonOverviewOverrides (base : LessonOverview) (o : LessonOverviewOverrides) :
    LessonOverview :=
  { teacher_name := o.teacher_name.getD base.teacher_name
    school_name := o.school_name.getD base.school_name
    region := o.region.getD base.region
    age_group := o.age_group.getD base.age_group
    subject := o.subject.getD base.subject
    lesson_type := o.lesson_type.getD base.lesson_type
    curriculum_goal_inferred_or_given :=
      o.curriculum_goal_inferred_or_given.getD base.curriculum_goal_inferred_or_given
    overall_impression := base.overall_impression }

/-- The `lessonOverview` local of `generateMockEvaluation`:
`\x7b ...sampleEvaluation.lesson_overview, ...overrides \x7d`. -/
def resolveLessonOverview (metadata : Option Json) : LessonOverview :=
  applyLessonOverviewOverrides sampleEvaluation.lesson_overview
    (extractLessonOverviewOverrides metadata)

/-! ## HTTP client boundary (`parseResponse` / `handleLessonUpload`) -/

/-- The parts of a `fetch` `Response` that `parseResponse` consumes. -/
structure HttpResponse where
  ok : Bool
  status : Nat
  text : String

mutual

/-- JavaScript `String(v)` coercion, used when a thrown `new Error(message)`
receives a non-string `message`.  Only the string and boolean cases are
exercised by the claims; number formatting is approximated (no claim
depends on it). -/
def jsToString : Json → String
  | .str s => s
  | .bool true => "true"
  | .bool false => "false"
  | .null => "null"
  | .num q => if q.den = 1 then toString q.num else toString q
  | .arr xs => jsToStringList xs
  | .obj _ => "[object Object]"

/-- `String(v)` of an array's elements, joined by commas. -/
def jsToStringList : List Json → String
  | [] => ""
  | [x] => jsToString x
  | x :: xs => jsToString x ++ "," ++ jsToStringList xs

end

/-- The generic failure message built by `parseResponse`:
`` `Request failed with status ${response.status}` ``. -/
def requestFailedMessage (status : Nat) : String :=
  "Request failed with status " ++ toString status

/-- `parseResponse` from the dashboard page; `Except.error` is the message
of the `Error` the TypeScript function throws:

```ts
async function parseResponse(response: Response) {
  const text = await response.text();
  if (!response.ok) {
    let message = `Request failed with status ${response.status}`;
    try {
      const parsed = JSON.parse(text);
      if (parsed?.error) { message = parsed.error; }
    } catch { /* no-op */ }
    throw new Error(message);
  }
  try { return text ? JSON.parse(text) : {}; }
  catch { throw new Error("Server returned malformed JSON."); }
}
``` -/
def parseResponse (parse : String → Option Json) (response : HttpResponse) :
    Except String Json :=
  if !response.ok then
    .error
      (match parse response.text with
       | some parsed =>
         (match jsGet parsed "error" with
          | some e => if jsFalsy e then requestFailedMessage response.status else jsToString e
          | none => requestFailedMessage response.status)
       | none => requestFailedMessage response.status)
  else
    if response.text = "" then .ok (.obj [])
    else
      match parse response.text with
      | some j => .ok j
      | none => .error "Server returned malformed JSON."

/-- Feedback kind of the upload form. -/
inductive FeedbackType where
  | success : FeedbackType
  | error : FeedbackType
deriving DecidableEq

/-- `UploadFeedback` from `lesson-upload-form.tsx`. -/
structure UploadFeedback where
  type : FeedbackType
  message : String
deriving DecidableEq

/-- The observable outcome of `handleLessonUpload` in the backend-wired
dashboard page: the feedback it sets, and the normalized evaluation it
stores on success.  Every value `parseResponse` throws is an `Error`, so
the `error instanceof Error` branch always selects `error.message`. -/
def handleLessonUpload (parse : String → Option Json) (fuel : Nat)
    (response : HttpResponse) : UploadFeedback × Option JsonPayload :=
  match parseResponse parse response with
  | .error msg => ({ type := .error, message := msg }, none)
  | .ok payload =>
    ({ type := .success, message := "Lesson evaluated successfully." },
     some (normalizeEvaluation parse fuel (jsGet payload "evaluation")))

/-! ## Lemmas about the Response Normalizer -/

/-- Unfolding `normStep` on an object argument: the binary top-level check,
then per-section spread merges with `domain_scores` passed through. -/
theorem normStep_obj (parse : String → Option Json) (recur : Option Json → JsonPayload)
    (fs : List (String × Json)) :
    normStep parse recur (some (.obj fs)) =
      if optFalsy (lookupField "lesson_overview" fs) ||
         optFalsy (lookupField "domain_scores" fs) ||
         optFalsy (lookupField "global_rating" fs) ||
         optFalsy (lookupField "limits_of_inference" fs) then
        sampleEvaluationJ
      else
        { lesson_overview :=
            objSpread sampleEvaluationJ.lesson_overview
              ((lookupField "lesson_overview" fs).getD .null)
          domain_scores :=
            (lookupField "domain_scores" fs).getD sampleEvaluationJ.domain_scores
          global_rating :=
            objSpread sampleEvaluationJ.global_rating
              ((lookupField "global_rating" fs).getD .null)
          limits_of_inference :=
            objSpread sampleEvaluationJ.limits_of_inference
              ((lookupField "limits_of_inference" fs).getD .null) } := rfl

/-- On an object argument the normalizer never recurses, so the fuel is
irrelevant. -/
theorem normalizeEvaluation_obj (parse : String → Option Json) (fuel : Nat)
    (fs : List (String × Json)) :
    normalizeEvaluation parse fuel (some (.obj fs)) =
      normStep parse (fun _ => sampleEvaluationJ) (some (.obj fs)) := by
  cases fuel <;> rfl

/-- A string the parser rejects sends `normStep` to the sample fallback. -/
theorem normStep_str_parse_none (parse : String → Option Json)
    (recur : Option Json → JsonPayload) (s : String) (h : parse s = none) :
    normStep parse recur (some (.str s)) = sampleEvaluationJ := by
  by_cases hs : s = ""
  · subst hs; rfl
  · show (if jsFalsy (.str s) then sampleEvaluationJ
      else match parse s with
           | some j => recur (some j)
           | none => sampleEvaluationJ) = sampleEvaluationJ
    rw [if_neg (by simpa [jsFalsy] using hs), h]

/-! ## C2 / C3 / C4 / C1 / C5 theorems -/

/-- C2: for every raw input object in which at least one of the four
top-level keys (`lesson_overview`, `domain_scores`, `global_rating`,
`limits_of_inference`) is absent, `normalizeEvaluation` returns the fixed
sample fallback payload in its entirety — no partial field-by-field repair
at the top level, whatever the other three sections contain. -/
theorem claim_C2_whole_payload_fallback (parse : String → Option Json) (fuel : Nat)
    (fs : List (String × Json))
    (h : lookupField "lesson_overview" fs = none ∨
         lookupField "domain_scores" fs = none ∨
         lookupField "global_rating" fs = none ∨
         lookupField "limits_of_inference" fs = none) :
    normalizeEvaluation parse fuel (some (.obj fs)) = sampleEvaluationJ := by
  rw [normalizeEvaluation_obj, normStep_obj]
  rcases h with h | h | h | h <;> rw [h] <;> simp [optFalsy]

/-- Witness for C2, the spec's own scenario: an object carrying well-formed
`lesson_overview`, `domain_scores` and `limits_of_inference` but no
`global_rating` key is discarded wholesale for the sample payload. -/
theorem claim_C2_whole_payload_fallback_witness :
    normalizeEvaluation (fun _ => none) 1
      (some (.obj
        [ ("lesson_overview", sampleEvaluationJ.lesson_overview),
          ("domain_scores", sampleEvaluationJ.domain_scores),
          ("limits_of_inference", sampleEvaluationJ.limits_of_inference) ]))
      = sampleEvaluationJ := by
  apply claim_C2_whole_payload_fallback
  exact Or.inr (Or.inr (Or.inl rfl))

/-- C3: a `null`/absent raw evaluation input yields the fixed fallback
payload, and so does a string input the JSON parser rejects; the normalizer
is a total function, so no exception propagates in either case (all four
top-level keys are present because the result is a `JsonPayload`). -/
theorem claim_C3_null_or_unparsable_falls_back (parse : String → Option Json)
    (fuel : Nat) :
    normalizeEvaluation parse fuel none = sampleEvaluationJ ∧
    normalizeEvaluation parse fuel (some .null) = sampleEvaluationJ ∧
    ∀ s : String, parse s = none →
      normalizeEvaluation parse fuel (some (.str s)) = sampleEvaluationJ := by
  refine ⟨?_, ?_, ?_⟩
  · cases fuel <;> rfl
  · cases fuel <;> rfl
  · intro s hs
    cases fuel with
    | zero => exact normStep_str_parse_none parse _ s hs
    | succ n => exact normStep_str_parse_none parse _ s hs

/-- Witness for C3 at a concrete parser that rejects everything and the
concrete unparsable string `"not json"`. -/
theorem claim_C3_null_or_unparsable_falls_back_witness :
    normalizeEvaluation (fun _ => none) 1 none = sampleEvaluationJ ∧
    normalizeEvaluation (fun _ => none) 1 (some .null) = sampleEvaluationJ ∧
    normalizeEvaluation (fun _ => none) 1 (some (.str "not json")) = sampleEvaluationJ := by
  obtain ⟨h1, h2, h3⟩ := claim_C3_null_or_unparsable_falls_back (fun _ => none) 1
  exact ⟨h1, h2, h3 "not json" rfl⟩

/-- The four sections of a payload are present and non-`null`. -/
def sectionsNonNull (p : JsonPayload) : Prop :=
  p.lesson_overview ≠ .null ∧ p.domain_scores ≠ .null ∧
  p.global_rating ≠ .null ∧ p.limits_of_inference ≠ .null

theorem sampleEvaluationJ_sectionsNonNull : sectionsNonNull sampleEvaluationJ :=
  ⟨fun h => Json.noConfusion h, fun h => Json.noConfusion h,
   fun h => Json.noConfusion h, fun h => Json.noConfusion h⟩

theorem ne_null_of_not_falsy {v : Json} (h : jsFalsy v = false) : v ≠ .null := by
  intro he; subst he; exact absurd h (by simp [jsFalsy])

/-- Every result of one normalizer step has all four sections non-`null`,
provided recursive results do. -/
theorem normStep_sectionsNonNull (parse : String → Option Json)
    (recur : Option Json → JsonPayload)
    (hrec : ∀ x, sectionsNonNull (recur x)) (raw : Option Json) :
    sectionsNonNull (normStep parse recur raw) := by
  cases raw with
  | none => exact sampleEvaluationJ_sectionsNonNull
  | some r =>
    cases r with
    | null => exact sampleEvaluationJ_sectionsNonNull
    | bool b => cases b <;> exact sampleEvaluationJ_sectionsNonNull
    | num q =>
      rw [show normStep parse recur (some (.num q)) =
            if jsFalsy (.num q) = true then sampleEvaluationJ else sampleEvaluationJ from rfl,
          ite_self]
      exact sampleEvaluationJ_sectionsNonNull
    | arr xs => exact sampleEvaluationJ_sectionsNonNull
    | str s =>
      rw [show normStep parse recur (some (.str s)) =
            if jsFalsy (.str s) = true then sampleEvaluationJ
            else (match parse s with
                  | some j => recur (some j)
                  | none => sampleEvaluationJ) from rfl]
      by_cases hs : jsFalsy (.str s) = true
      · rw [if_pos hs]; exact sampleEvaluationJ_sectionsNonNull
      · rw [if_neg hs]
        cases hp : parse s with
        | some j => exact hrec (some j)
        | none => exact sampleEvaluationJ_sectionsNonNull
    | obj fs =>
      rw [normStep_obj]
      by_cases hc : (optFalsy (lookupField "lesson_overview" fs) ||
          optFalsy (lookupField "domain_scores" fs) ||
          optFalsy (lookupField "global_rating" fs) ||
          optFalsy (lookupField "limits_of_inference" fs)) = true
      · rw [if_pos hc]; exact sampleEvaluationJ_sectionsNonNull
      · rw [if_neg hc]
        simp only [Bool.or_eq_true, not_or] at hc
        obtain ⟨⟨⟨h1, h2⟩, h3⟩, h4⟩ := hc
        refine ⟨fun h => Json.noConfusion h, ?_, fun h => Json.noConfusion h,
          fun h => Json.noConfusion h⟩
        cases hds : lookupField "domain_scores" fs with
        | none => rw [hds] at h2; exact absurd rfl h2
        | some v =>
          rw [hds] at h2
          exact ne_null_of_not_falsy (v := v) (by simpa [optFalsy] using h2)

/-- C4: the Response Normalizer is total — it is a function defined on
every raw input shape (`undefined`, `null`, booleans, numbers, strings,
arrays, objects), it throws nothing, and every payload it returns carries
all four top-level sections (`JsonPayload` always has the four keys) with
non-`null` values. -/
theorem claim_C4_normalizer_total (parse : String → Option Json) (fuel : Nat)
    (raw : Option Json) :
    sectionsNonNull (normalizeEvaluation parse fuel raw) := by
  induction fuel generalizing raw with
  | zero =>
    exact normStep_sectionsNonNull parse _ (fun _ => sampleEvaluationJ_sectionsNonNull) raw
  | succ n ih => exact normStep_sectionsNonNull parse _ ih raw

/-- Witness for C4 at a number input (a shape the schema never mentions). -/
theorem claim_C4_normalizer_total_witness :
    sectionsNonNull (normalizeEvaluation (fun _ => none) 1 (some (.num 7))) :=
  claim_C4_normalizer_total (fun _ => none) 1 (some (.num 7))

/-- Counterexample to C1 as stated.  This input object *contains all four
top-level keys*, but `lesson_overview` is bound to `null`: the code's check
is `!candidate.lesson_overview` — truthiness, not key presence — so the
whole sample payload is returned.  In particular `domain_scores` is *not*
taken verbatim from the candidate: the candidate's `domain_scores` owns the
key `"x"`, the returned section does not. -/
theorem claim_C1_counterexample :
    normalizeEvaluation (fun _ => none) 1
      (some (.obj
        [ ("lesson_overview", .null),
          ("domain_scores", .obj [("x", .str "y")]),
          ("global_rating", .obj []),
          ("limits_of_inference", .obj []) ])) = sampleEvaluationJ ∧
    jsGet (normalizeEvaluation (fun _ => none) 1
      (some (.obj
        [ ("lesson_overview", .null),
          ("domain_scores", .obj [("x", .str "y")]),
          ("global_rating", .obj []),
          ("limits_of_inference", .obj []) ]))).domain_scores "x" = none :=
  ⟨rfl, rfl⟩

/-- C1 (amended): for every raw input object whose four top-level keys are
present with *truthy* values (the code tests `!candidate.section`, so a key
bound to `null`, `false`, `0` or `""` triggers the whole-payload fallback
instead) — here with the three merged sections being runtime objects — the
normalizer returns a payload in which each of `lesson_overview`,
`global_rating` and `limits_of_inference` is the shallow per-field merge of
the candidate's fields over the sample fallback's fields (candidate wins
for every field it provides, the fallback supplies any missing field),
while `domain_scores` is the candidate's value verbatim, with no merging
against the fallback.  The `Nodup` hypotheses record that JavaScript
runtime objects have unique keys. -/
theorem claim_C1_per_field_merge (parse : String → Option Json) (fuel : Nat)
    (fs lofs grfs lifs : List (String × Json)) (dsv : Json)
    (hlo : lookupField "lesson_overview" fs = some (.obj lofs))
    (hds : lookupField "domain_scores" fs = some dsv)
    (hgr : lookupField "global_rating" fs = some (.obj grfs))
    (hli : lookupField "limits_of_inference" fs = some (.obj lifs))
    (hdst : jsFalsy dsv = false)
    (hlon : (lofs.map Prod.fst).Nodup)
    (hgrn : (grfs.map Prod.fst).Nodup)
    (hlin : (lifs.map Prod.fst).Nodup) :
    (∀ k, jsGet (normalizeEvaluation parse fuel (some (.obj fs))).lesson_overview k =
        firstSome (lookupField k lofs) (jsGet sampleEvaluationJ.lesson_overview k)) ∧
    (∀ k, jsGet (normalizeEvaluation parse fuel (some (.obj fs))).global_rating k =
        firstSome (lookupField k grfs) (jsGet sampleEvaluationJ.global_rating k)) ∧
    (∀ k, jsGet (normalizeEvaluation parse fuel (some (.obj fs))).limits_of_inference k =
        firstSome (lookupField k lifs) (jsGet sampleEvaluationJ.limits_of_inference k)) ∧
    (normalizeEvaluation parse fuel (some (.obj fs))).domain_scores = dsv := by
  rw [normalizeEvaluation_obj, normStep_obj, hlo, hds, hgr, hli]
  have hcond : (optFalsy (some (Json.obj lofs)) || optFalsy (some dsv) ||
      optFalsy (some (Json.obj grfs)) || optFalsy (some (Json.obj lifs))) = false := by
    show (jsFalsy (Json.obj lofs) || jsFalsy dsv ||
      jsFalsy (Json.obj grfs) || jsFalsy (Json.obj lifs)) = false
    rw [hdst]
    rfl
  rw [if_neg (fun h => Bool.false_ne_true (hcond ▸ h))]
  refine ⟨?_, ?_, ?_, rfl⟩
  · intro k
    show lookupField k (mergeFields (spreadFields sampleEvaluationJ.lesson_overview) lofs) = _
    rw [lookupField_mergeFields lofs hlon]
    rfl
  · intro k
    show lookupField k (mergeFields (spreadFields sampleEvaluationJ.global_rating) grfs) = _
    rw [lookupField_mergeFields grfs hgrn]
    rfl
  · intro k
    show lookupField k (mergeFields (spreadFields sampleEvaluationJ.limits_of_inference) lifs) = _
    rw [lookupField_mergeFields lifs hlin]
    rfl

/-- Witness for the amended C1, the spec's own scenario: all four keys
present and truthy, `lesson_overview.subject` absent in the candidate — the
fallback's `subject` ("Mathematics") is retained while the candidate's
`teacher_name` survives, and `domain_scores` comes back verbatim. -/
theorem claim_C1_per_field_merge_witness :
    jsGet (normalizeEvaluation (fun _ => none) 1
      (some (.obj
        [ ("lesson_overview", .obj [("teacher_name", .str "Mr. T")]),
          ("domain_scores", .obj [("only_domain", .str "kept")]),
          ("global_rating", .obj []),
          ("limits_of_inference", .obj []) ]))).lesson_overview "subject"
      = some (.str "Mathematics") ∧
    jsGet (normalizeEvaluation (fun _ => none) 1
      (some (.obj
        [ ("lesson_overview", .obj [("teacher_name", .str "Mr. T")]),
          ("domain_scores", .obj [("only_domain", .str "kept")]),
          ("global_rating", .obj []),
          ("limits_of_inference", .obj []) ]))).lesson_overview "teacher_name"
      = some (.str "Mr. T") ∧
    (normalizeEvaluation (fun _ => none) 1
      (some (.obj
        [ ("lesson_overview", .obj [("teacher_name", .str "Mr. T")]),
          ("domain_scores", .obj [("only_domain", .str "kept")]),
          ("global_rating", .obj []),
          ("limits_of_inference", .obj []) ]))).domain_scores
      = .obj [("only_domain", .str "kept")] := by
  obtain ⟨h1, _, _, h4⟩ := claim_C1_per_field_merge (fun _ => none) 1
    [ ("lesson_overview", .obj [("teacher_name", .str "Mr. T")]),
      ("domain_scores", .obj [("only_domain", .str "kept")]),
      ("global_rating", .obj []),
      ("limits_of_inference", .obj []) ]
    [("teacher_name", .str "Mr. T")] [] [] (.obj [("only_domain", .str "kept")])
    rfl rfl rfl rfl rfl (by simp) (by simp) (by simp)
  refine ⟨?_, ?_, h4⟩
  · rw [h1 "subject"]; rfl
  · rw [h1 "teacher_name"]; rfl

/-- Counterexample to C5 as stated.  The Response Normalizer performs no
validation of domain scores: this candidate passes the top-level check and
its `domain_scores` carries a numeric score of `99`, which the normalizer
returns untouched even though `99` is neither in `[1,4]` nor rejected. -/
theorem claim_C5_counterexample :
    jsGet ((jsGet (normalizeEvaluation (fun _ => none) 1
      (some (.obj
        [ ("lesson_overview", .obj []),
          ("domain_scores", .obj
            [ ("demo_domain", .obj
                [ ("score_1_to_4_or_NA", .num 99),
                  ("evidence", .str "e"),
                  ("suggestions", .arr []) ]) ]),
          ("global_rating", .obj []),
          ("limits_of_inference", .obj []) ]))).domain_scores "demo_domain").getD .null)
      "score_1_to_4_or_NA" = some (.num 99) ∧
    ¬ ((99 : ℚ) ≤ 4) := by
  exact ⟨rfl, by norm_num⟩

/-- C5 (amended): the `[1,4]` integer score range is a convention that the
fixed sample payload satisfies, but the Response Normalizer does not
validate it: whenever the top-level check passes, `domain_scores` is
returned verbatim from the candidate, so out-of-range or non-integer
scores pass through the normalization boundary unchecked.  (First
conjunct: every numeric score of the sample fallback is an integer in
`[1,4]`; second: verbatim pass-through for every accepted candidate.) -/
theorem claim_C5_no_score_validation :
    (∀ kd ∈ sampleEvaluation.domain_scores, ∀ q : ℚ,
        kd.2.score_1_to_4_or_NA = .score q → 1 ≤ q ∧ q ≤ 4 ∧ q.den = 1) ∧
    (∀ (parse : String → Option Json) (fuel : Nat) (fs : List (String × Json)) (dsv : Json),
        lookupField "lesson_overview" fs = some (.obj []) →
        lookupField "domain_scores" fs = some dsv →
        lookupField "global_rating" fs = some (.obj []) →
        lookupField "limits_of_inference" fs = some (.obj []) →
        jsFalsy dsv = false →
        (normalizeEvaluation parse fuel (some (.obj fs))).domain_scores = dsv) := by
  constructor
  · intro kd hkd q hq
    fin_cases hkd <;> simp_all [ScoreValue.score.injEq] <;> norm_num [← hq]
  · intro parse fuel fs dsv hlo hds hgr hli hdst
    rw [normalizeEvaluation_obj, normStep_obj, hlo, hds, hgr, hli]
    have hcond : (optFalsy (some (Json.obj [])) || optFalsy (some dsv) ||
        optFalsy (some (Json.obj [])) || optFalsy (some (Json.obj []))) = false := by
      show (jsFalsy (Json.obj []) || jsFalsy dsv ||
        jsFalsy (Json.obj []) || jsFalsy (Json.obj [])) = false
      rw [hdst]
      rfl
    rw [if_neg (fun h => Bool.false_ne_true (hcond ▸ h))]
    rfl

/-- Witness for the amended C5: the sample's first domain score is the
integer 3 in range, and a concrete accepted candidate's `domain_scores`
value (score 99 included) is returned verbatim. -/
theorem claim_C5_no_score_validation_witness :
    (1 ≤ (3 : ℚ) ∧ (3 : ℚ) ≤ 4 ∧ (3 : ℚ).den = 1) ∧
    (normalizeEvaluation (fun _ => none) 1
      (some (.obj
        [ ("lesson_overview", .obj []),
          ("domain_scores", .obj [("demo_domain", .obj [("score_1_to_4_or_NA", .num 99)])]),
          ("global_rating", .obj []),
          ("limits_of_inference", .obj []) ]))).domain_scores
      = .obj [("demo_domain", .obj [("score_1_to_4_or_NA", .num 99)])] := by
  obtain ⟨h1, h2⟩ := claim_C5_no_score_validation
  refine ⟨?_, ?_⟩
  · exact h1 (sampleEvaluation.domain_scores.head (by simp [sampleEvaluation]))
      (List.head_mem _) 3 rfl
  · exact h2 (fun _ => none) 1 _ _ rfl rfl rfl rfl rfl

/-! ## C6 / C7 / C10: score band and mock score range -/

/-- C6: the human-readable band of a mean score is given exactly by the
fixed threshold table of `describeScoreBand`: `mean ≥ 3.5` is "Exemplary",
`3 ≤ mean < 3.5` is "Effective", `2.25 ≤ mean < 3` is "Developing", and
`mean < 2.25` is "Unsatisfactory" — each threshold included in the band
above it. -/
theorem claim_C6_band_threshold_table (mean : ℚ) :
    (3.5 ≤ mean → describeScoreBand mean = "Exemplary") ∧
    (3 ≤ mean → mean < 3.5 → describeScoreBand mean = "Effective") ∧
    (2.25 ≤ mean → mean < 3 → describeScoreBand mean = "Developing") ∧
    (mean < 2.25 → describeScoreBand mean = "Unsatisfactory") := by
  unfold describeScoreBand
  refine ⟨fun h => ?_, fun h1 h2 => ?_, fun h1 h2 => ?_, fun h => ?_⟩
  · rw [if_pos h]
  · rw [if_neg (not_le.mpr h2), if_pos h1]
  · rw [if_neg (not_le.mpr (by linarith)), if_neg (not_le.mpr h2), if_pos h1]
  · rw [if_neg (not_le.mpr (by linarith)), if_neg (not_le.mpr (by linarith)),
      if_neg (not_le.mpr h)]

/-- Witness for C6 at the three boundary means the spec names:
`3.0 → "Effective"`, `2.24 → "Unsatisfactory"`, `3.5 → "Exemplary"`. -/
theorem claim_C6_band_threshold_table_witness :
    describeScoreBand 3 = "Effective" ∧
    describeScoreBand 2.24 = "Unsatisfactory" ∧
    describeScoreBand 3.5 = "Exemplary" :=
  ⟨(claim_C6_band_threshold_table 3).2.1 (by norm_num) (by norm_num),
   (claim_C6_band_threshold_table 2.24).2.2.2 (by norm_num),
   (claim_C6_band_threshold_table 3.5).1 (by norm_num)⟩

/-- A mock score never goes below 2: `Math.random() * 2 + 2` is at least 2,
rounding to one decimal preserves that, and the clamp only lowers values
above 4. -/
theorem two_le_buildMockScore (r : ℚ) (h0 : 0 ≤ r) : 2 ≤ buildMockScore r := by
  unfold buildMockScore roundTo1
  have h20 : (41 : ℚ) / 2 ≤ (r * 2 + 2) * 10 + 1 / 2 := by nlinarith
  have hfloor : (20 : ℤ) ≤ round ((r * 2 + 2) * 10) := by
    rw [round_eq]
    calc (20 : ℤ) = ⌊(41 : ℚ) / 2⌋ := by norm_num
    _ ≤ ⌊(r * 2 + 2) * 10 + 1 / 2⌋ := Int.floor_mono h20
  have h2 : (2 : ℚ) ≤ ((round ((r * 2 + 2) * 10) : ℤ) : ℚ) / 10 := by
    have hc : ((20 : ℤ) : ℚ) ≤ ((round ((r * 2 + 2) * 10) : ℤ) : ℚ) := Int.cast_le.mpr hfloor
    push_cast at hc
    linarith
  exact le_min (by norm_num) (le_trans h2 (le_max_right 1 _))

/-- A mock score never exceeds 4: the `Math.min(4, ·)` clamp. -/
theorem buildMockScore_le_four (r : ℚ) : buildMockScore r ≤ 4 := by
  unfold buildMockScore
  exact min_le_left _ _

/-- Every entry of `randomizeDomainScores` carries the mock score built
from the draw at its index. -/
theorem randomizeDomainScores_mem (rand : Nat → ℚ)
    (baseScores : List (String × DomainScore)) :
    ∀ kd ∈ randomizeDomainScores rand baseScores,
      ∃ i, kd.2.score_1_to_4_or_NA = .score (buildMockScore (rand i)) := by
  intro kd hkd
  unfold randomizeDomainScores at hkd
  rcases List.mem_map.mp hkd with ⟨p, _, rfl⟩
  exact ⟨p.1, rfl⟩

/-- C7: for every run of the mock generator (any sequence of `Math.random()`
draws, each in `[0,1)`), every domain score generated over the sample
payload's domain keys — one independent draw per domain — is a number in
the closed range `[1,4]`. -/
theorem claim_C7_mock_scores_in_one_to_four (rand : Nat → ℚ)
    (hrand : ∀ i, 0 ≤ rand i ∧ rand i < 1) :
    ∀ kd ∈ randomizeDomainScores rand sampleEvaluation.domain_scores,
      ∃ q : ℚ, kd.2.score_1_to_4_or_NA = .score q ∧ 1 ≤ q ∧ q ≤ 4 := by
  intro kd hkd
  obtain ⟨i, hi⟩ := randomizeDomainScores_mem rand _ kd hkd
  exact ⟨buildMockScore (rand i), hi,
    le_trans (by norm_num) (two_le_buildMockScore (rand i) (hrand i).1),
    buildMockScore_le_four (rand i)⟩

/-- Witness for C7 with all draws equal to 0: the first generated domain
entry carries a numeric score in `[1,4]`. -/
theorem claim_C7_mock_scores_in_one_to_four_witness :
    ((0 : ℚ) ≤ 0 ∧ (0 : ℚ) < 1) ∧
    ∃ kd, (randomizeDomainScores (fun _ => 0) sampleEvaluation.domain_scores)[0]? = some kd ∧
      ∃ q : ℚ, kd.2.score_1_to_4_or_NA = .score q ∧ 1 ≤ q ∧ q ≤ 4 := by
  refine ⟨⟨le_refl 0, by norm_num⟩, ?_⟩
  have h := claim_C7_mock_scores_in_one_to_four (fun _ => 0)
    (fun _ => ⟨le_refl 0, by norm_num⟩)
  obtain ⟨kd, hkd⟩ :
      ∃ kd, (randomizeDomainScores (fun _ => 0) sampleEvaluation.domain_scores)[0]? = some kd :=
    ⟨_, rfl⟩
  exact ⟨kd, hkd, h kd (List.getElem?_mem hkd)⟩

/-- C10: every domain score produced by the mock generator in fact lies in
the closed range `[2,4]` — the draw is scaled into `[2,4)` before rounding
and the clamp floor of 1 is slack — so a value strictly below 2.0 is never
generated, a strictly narrower range than the `[1,4]` the spec states. -/
theorem claim_C10_mock_scores_in_two_to_four (rand : Nat → ℚ)
    (hrand : ∀ i, 0 ≤ rand i ∧ rand i < 1) :
    ∀ kd ∈ randomizeDomainScores rand sampleEvaluation.domain_scores,
      ∃ q : ℚ, kd.2.score_1_to_4_or_NA = .score q ∧ 2 ≤ q ∧ q ≤ 4 := by
  intro kd hkd
  obtain ⟨i, hi⟩ := randomizeDomainScores_mem rand _ kd hkd
  exact ⟨buildMockScore (rand i), hi,
    two_le_buildMockScore (rand i) (hrand i).1, buildMockScore_le_four (rand i)⟩

/-- Witness for C10 with all draws equal to 1/2: the first generated entry
has a numeric score in `[2,4]`. -/
theorem claim_C10_mock_scores_in_two_to_four_witness :
    ((0 : ℚ) ≤ 1 / 2 ∧ (1 : ℚ) / 2 < 1) ∧
    ∃ kd, (randomizeDomainScores (fun _ => 1 / 2) sampleEvaluation.domain_scores)[0]? = some kd ∧
      ∃ q : ℚ, kd.2.score_1_to_4_or_NA = .score q ∧ 2 ≤ q ∧ q ≤ 4 := by
  refine ⟨⟨by norm_num, by norm_num⟩, ?_⟩
  have h := claim_C10_mock_scores_in_two_to_four (fun _ => 1 / 2)
    (fun _ => ⟨by norm_num, by norm_num⟩)
  obtain ⟨kd, hkd⟩ :
      ∃ kd, (randomizeDomainScores (fun _ => 1 / 2) sampleEvaluation.domain_scores)[0]? = some kd :=
    ⟨_, rfl⟩
  exact ⟨kd, hkd, h kd (List.getElem?_mem hkd)⟩

/-! ## C8: Metadata Resolver -/

/-- The resolution rule for one overview field: `value` is the trimmed
input string at `key` when the metadata record is a truthy object holding a
string there whose trim is non-empty, and exactly the default `dflt` in
every other situation. -/
def resolvesField (metadata : Option Json) (key : String) (value dflt : String) : Prop :=
  (∃ m s, metadata = some m ∧ jsFalsy m = false ∧ jsTypeofObject m = true ∧
      jsGet m key = some (.str s) ∧ jsTrim s ≠ "" ∧ value = jsTrim s) ∨
  ((¬ ∃ m s, metadata = some m ∧ jsFalsy m = false ∧ jsTypeofObject m = true ∧
      jsGet m key = some (.str s) ∧ jsTrim s ≠ "") ∧ value = dflt)

theorem assignString_spec (m : Json) (k : String) :
    (∃ s, jsGet m k = some (.str s) ∧ jsTrim s ≠ "" ∧ assignString m k = some (jsTrim s)) ∨
    ((¬ ∃ s, jsGet m k = some (.str s) ∧ jsTrim s ≠ "") ∧ assignString m k = none) := by
  unfold assignString
  cases h : jsGet m k with
  | none =>
    right
    refine ⟨?_, rfl⟩
    rintro ⟨s, hs, -⟩
    cases hs
  | some v =>
    cases v with
    | str s =>
      by_cases ht : jsTrim s = ""
      · right
        refine ⟨?_, ?_⟩
        · rintro ⟨s', hs', hne⟩
          cases hs'
          exact hne ht
        · show (if jsTrim s = "" then none else some (jsTrim s)) = none
          rw [if_pos ht]
      · left
        refine ⟨s, rfl, ht, ?_⟩
        show (if jsTrim s = "" then none else some (jsTrim s)) = some (jsTrim s)
        rw [if_neg ht]
    | null =>
      right
      refine ⟨?_, rfl⟩
      rintro ⟨s, hs, -⟩
      cases hs
    | bool b =>
      right
      refine ⟨?_, rfl⟩
      rintro ⟨s, hs, -⟩
      cases hs
    | num q =>
      right
      refine ⟨?_, rfl⟩
      rintro ⟨s, hs, -⟩
      cases hs
    | arr xs =>
      right
      refine ⟨?_, rfl⟩
      rintro ⟨s, hs, -⟩
      cases hs
    | obj fs =>
      right
      refine ⟨?_, rfl⟩
      rintro ⟨s, hs, -⟩
      cases hs

/-- Resolution of one field when the extracted override is known to come
from `assignString` behind the truthiness/typeof guard. -/
theorem resolvesField_getD (metadata : Option Json) (key dflt : String)
    (ov : Option String)
    (hnone : metadata = none → ov = none)
    (hsome : ∀ m, metadata = some m →
      ov = if (jsFalsy m || !jsTypeofObject m) = true then none else assignString m key) :
    resolvesField metadata key (ov.getD dflt) dflt := by
  cases metadata with
  | none =>
    right
    rw [hnone rfl]
    refine ⟨?_, rfl⟩
    rintro ⟨m, s, hm, -⟩
    cases hm
  | some m =>
    rw [hsome m rfl]
    by_cases hg : (jsFalsy m || !jsTypeofObject m) = true
    · right
      rw [if_pos hg]
      refine ⟨?_, rfl⟩
      rintro ⟨m', s, hm', hf, ht, -, -⟩
      cases hm'
      rw [hf, ht] at hg
      simp at hg
    · rw [if_neg hg]
      simp only [Bool.or_eq_true, Bool.not_eq_true', not_or, Bool.not_eq_true,
        Bool.not_eq_false] at hg
      rcases assignString_spec m key with ⟨s, hs, hne, ha⟩ | ⟨hno, ha⟩
      · left
        exact ⟨m, s, rfl, hg.1, hg.2, hs, hne, by rw [ha]; rfl⟩
      · right
        refine ⟨?_, by rw [ha]; rfl⟩
        rintro ⟨m', s, hm', -, -, hs, hne⟩
        cases hm'
        exact hno ⟨s, hs, hne⟩

theorem resolvesField_ne_empty {metadata : Option Json} {key value dflt : String}
    (h : resolvesField metadata key value dflt) (hd : dflt ≠ "") : value ≠ "" := by
  rcases h with ⟨m, s, -, -, -, -, hne, hv⟩ | ⟨-, hv⟩
  · rw [hv]; exact hne
  · rw [hv]; exact hd

/-- C8: for every possibly-partial metadata input, the resolved lesson
overview gives each known field the input's trimmed string value exactly
when the input holds a string that is non-empty after trimming, and the
fixed default otherwise (`resolvesField` is an exclusive either/or), so no
resolved field is ever the empty string; an input key `curriculum_goal`
surfaces under `curriculum_goal_inferred_or_given`, and the key name
`curriculum_goal` never appears among the serialized overview's keys.
Resolution is a total Lean function, so it never fails. -/
theorem claim_C8_metadata_resolution (metadata : Option Json) :
    resolvesField metadata "teacher_name" (resolveLessonOverview metadata).teacher_name
      sampleEvaluation.lesson_overview.teacher_name ∧
    resolvesField metadata "school_name" (resolveLessonOverview metadata).school_name
      sampleEvaluation.lesson_overview.school_name ∧
    resolvesField metadata "region" (resolveLessonOverview metadata).region
      sampleEvaluation.lesson_overview.region ∧
    resolvesField metadata "age_group" (resolveLessonOverview metadata).age_group
      sampleEvaluation.lesson_overview.age_group ∧
    resolvesField metadata "subject" (resolveLessonOverview metadata).subject
      sampleEvaluation.lesson_overview.subject ∧
    resolvesField metadata "lesson_type" (resolveLessonOverview metadata).lesson_type
      sampleEvaluation.lesson_overview.lesson_type ∧
    resolvesField metadata "curriculum_goal"
      (resolveLessonOverview metadata).curriculum_goal_inferred_or_given
      sampleEvaluation.lesson_overview.curriculum_goal_inferred_or_given ∧
    (resolveLessonOverview metadata).overall_impression =
      sampleEvaluation.lesson_overview.overall_impression ∧
    ((resolveLessonOverview metadata).teacher_name ≠ "" ∧
     (resolveLessonOverview metadata).school_name ≠ "" ∧
     (resolveLessonOverview metadata).region ≠ "" ∧
     (resolveLessonOverview metadata).age_group ≠ "" ∧
     (resolveLessonOverview metadata).subject ≠ "" ∧
     (resolveLessonOverview metadata).lesson_type ≠ "" ∧
     (resolveLessonOverview metadata).curriculum_goal_inferred_or_given ≠ "" ∧
     (resolveLessonOverview metadata).overall_impression ≠ "") ∧
    "curriculum_goal" ∉ (lessonOverviewFields (resolveLessonOverview metadata)).map Prod.fst := by
  have hTeacher := resolvesField_getD metadata "teacher_name"
    sampleEvaluation.lesson_overview.teacher_name
    (extractLessonOverviewOverrides metadata).teacher_name
    (fun h => by subst h; rfl)
    (fun m hm => by
      subst hm
      show (if (jsFalsy m || !jsTypeofObject m) = true then ({} : LessonOverviewOverrides)
        else _).teacher_name = _
      by_cases h : (jsFalsy m || !jsTypeofObject m) = true
      · rw [if_pos h, if_pos h]
      · rw [if_neg h, if_neg h])
  have hSchool := resolvesField_getD metadata "school_name"
    sampleEvaluation.lesson_overview.school_name
    (extractLessonOverviewOverrides metadata).school_name
    (fun h => by subst h; rfl)
    (fun m hm => by
      subst hm
      show (if (jsFalsy m || !jsTypeofObject m) = true then ({} : LessonOverviewOverrides)
        else _).school_name = _
      by_cases h : (jsFalsy m || !jsTypeofObject m) = true
      · rw [if_pos h, if_pos h]
      · rw [if_neg h, if_neg h])
  have hRegion := resolvesField_getD metadata "region"
    sampleEvaluation.lesson_overview.region
    (extractLessonOverviewOverrides metadata).region
    (fun h => by subst h; rfl)
    (fun m hm => by
      subst hm
      show (if (jsFalsy m || !jsTypeofObject m) = true then ({} : LessonOverviewOverrides)
        else _).region = _
      by_cases h : (jsFalsy m || !jsTypeofObject m) = true
      · rw [if_pos h, if_pos h]
      · rw [if_neg h, if_neg h])
  have hAge := resolvesField_getD metadata "age_group"
    sampleEvaluation.lesson_overview.age_group
    (extractLessonOverviewOverrides metadata).age_group
    (fun h => by subst h; rfl)
    (fun m hm => by
      subst hm
      show (if (jsFalsy m || !jsTypeofObject m) = true then ({} : LessonOverviewOverrides)
        else _).age_group = _
      by_cases h : (jsFalsy m || !jsTypeofObject m) = true
      · rw [if_pos h, if_pos h]
      · rw [if_neg h, if_neg h])
  have hSubject := resolvesField_getD metadata "subject"
    sampleEvaluation.lesson_overview.subject
    (extractLessonOverviewOverrides metadata).subject
    (fun h => by subst h; rfl)
    (fun m hm => by
      subst hm
      show (if (jsFalsy m || !jsTypeofObject m) = true then ({} : LessonOverviewOverrides)
        else _).subject = _
      by_cases h : (jsFalsy m || !jsTypeofObject m) = true
      · rw [if_pos h, if_pos h]
      · rw [if_neg h, if_neg h])
  have hLessonType := resolvesField_getD metadata "lesson_type"
    sampleEvaluation.lesson_overview.lesson_type
    (extractLessonOverviewOverrides metadata).lesson_type
    (fun h => by subst h; rfl)
    (fun m hm => by
      subst hm
      show (if (jsFalsy m || !jsTypeofObject m) = true then ({} : LessonOverviewOverrides)
        else _).lesson_type = _
      by_cases h : (jsFalsy m || !jsTypeofObject m) = true
      · rw [if_pos h, if_pos h]
      · rw [if_neg h, if_neg h])
  have hGoal := resolvesField_getD metadata "curriculum_goal"
    sampleEvaluation.lesson_overview.curriculum_goal_inferred_or_given
    (extractLessonOverviewOverrides metadata).curriculum_goal_inferred_or_given
    (fun h => by subst h; rfl)
    (fun m hm => by
      subst hm
      show (if (jsFalsy m || !jsTypeofObject m) = true then ({} : LessonOverviewOverrides)
        else _).curriculum_goal_inferred_or_given = _
      by_cases h : (jsFalsy m || !jsTypeofObject m) = true
      · rw [if_pos h, if_pos h]
      · rw [if_neg h, if_neg h])
  refine ⟨hTeacher, hSchool, hRegion, hAge, hSubject, hLessonType, hGoal, rfl,
    ⟨resolvesField_ne_empty hTeacher (by decide),
     resolvesField_ne_empty hSchool (by decide),
     resolvesField_ne_empty hRegion (by decide),
     resolvesField_ne_empty hAge (by decide),
     resolvesField_ne_empty hSubject (by decide),
     resolvesField_ne_empty hLessonType (by decide),
     resolvesField_ne_empty hGoal (by decide),
     by
       show sampleEvaluation.lesson_overview.overall_impression ≠ ""
       decide⟩, ?_⟩
  simp only [lessonOverviewFields, List.map_cons, List.map_nil]
  decide

/-- Witness for C8 at a concrete metadata record: `teacher_name` is
trimmed, the `curriculum_goal` input key lands in
`curriculum_goal_inferred_or_given`, an absent `subject` falls back to the
default, and the resolved record never shows a `curriculum_goal` key. -/
theorem claim_C8_metadata_resolution_witness :
    resolvesField
      (some (.obj [("teacher_name", .str "  Ms. X "), ("curriculum_goal", .str " Goal ")]))
      "teacher_name"
      (resolveLessonOverview
        (some (.obj [("teacher_name", .str "  Ms. X "), ("curriculum_goal", .str " Goal ")]))).teacher_name
      sampleEvaluation.lesson_overview.teacher_name ∧
    (resolveLessonOverview
      (some (.obj [("teacher_name", .str "  Ms. X "), ("curriculum_goal", .str " Goal ")]))).teacher_name
      = "Ms. X" ∧
    (resolveLessonOverview
      (some (.obj [("teacher_name", .str "  Ms. X "), ("curriculum_goal", .str " Goal ")]))).curriculum_goal_inferred_or_given
      = "Goal" ∧
    (resolveLessonOverview
      (some (.obj [("teacher_name", .str "  Ms. X "), ("curriculum_goal", .str " Goal ")]))).subject
      = "Mathematics" ∧
    (resolveLessonOverview
      (some (.obj [("teacher_name", .str "  Ms. X "), ("curriculum_goal", .str " Goal ")]))).teacher_name
      ≠ "" ∧
    "curriculum_goal" ∉
      (lessonOverviewFields (resolveLessonOverview
        (some (.obj [("teacher_name", .str "  Ms. X "), ("curriculum_goal", .str " Goal ")])))).map Prod.fst := by
  obtain ⟨h1, -, -, -, -, -, -, -, hne, habs⟩ := claim_C8_metadata_resolution
    (some (.obj [("teacher_name", .str "  Ms. X "), ("curriculum_goal", .str " Goal ")]))
  exact ⟨h1, rfl, rfl, rfl, hne.1, habs⟩

/-! ## C9: client-side error surfacing -/

/-- Counterexample to C9 as stated.  An HTTP 500 response whose body is the
JSON object with `error` bound to the boolean `true` parses successfully
and its `error` field is truthy, so the code assigns that non-string value
to the thrown `Error`, and the surfaced feedback message is the string
coercion `"true"` — neither a server-provided error *string* (the field is
not a string) nor the generic request-failed message, contradicting the
claim's either/or. -/
theorem claim_C9_counterexample :
    (handleLessonUpload
      (fun s => if s = "\x7b\"error\": true\x7d"
        then some (.obj [("error", .bool true)]) else none)
      1 ⟨false, 500, "\x7b\"error\": true\x7d"⟩).1
      = ⟨.error, "true"⟩ ∧
    requestFailedMessage 500 = "Request failed with status 500" ∧
    "true" ≠ "Request failed with status 500" ∧
    jsGet (.obj [("error", .bool true)]) "error" = some (.bool true) :=
  ⟨rfl, rfl, by decide, rfl⟩

/-- C9 (amended): every non-2xx response is converted to a single feedback
message and never escapes uncaught (`handleLessonUpload` always returns an
error feedback record here).  When the body parses as JSON and carries a
non-empty *string* `error` field, the surfaced message is exactly that
string; when the body fails to parse, lacks an `error` field, or its
`error` field is falsy (such as the empty string), the surfaced message is
the generic request-failed message naming the status code; a truthy
non-string `error` field surfaces as its JavaScript string coercion. -/
theorem claim_C9_error_surfacing (parse : String → Option Json) (fuel : Nat)
    (response : HttpResponse) (hok : response.ok = false) :
    (handleLessonUpload parse fuel response).1.type = .error ∧
    (∀ p s, parse response.text = some p → jsGet p "error" = some (.str s) → s ≠ "" →
      (handleLessonUpload parse fuel response).1.message = s) ∧
    (parse response.text = none →
      (handleLessonUpload parse fuel response).1.message = requestFailedMessage response.status) ∧
    (∀ p, parse response.text = some p → jsGet p "error" = none →
      (handleLessonUpload parse fuel response).1.message = requestFailedMessage response.status) ∧
    (∀ p e, parse response.text = some p → jsGet p "error" = some e → jsFalsy e = true →
      (handleLessonUpload parse fuel response).1.message = requestFailedMessage response.status) ∧
    (∀ p e, parse response.text = some p → jsGet p "error" = some e → jsFalsy e = false →
      (handleLessonUpload parse fuel response).1.message = jsToString e) := by
  have hstep : ∀ msg, parseResponse parse response = .error msg →
      (handleLessonUpload parse fuel response).1 = ⟨.error, msg⟩ := by
    intro msg hmsg
    unfold handleLessonUpload
    rw [hmsg]
  have herr : parseResponse parse response = .error
      (match parse response.text with
       | some parsed =>
         (match jsGet parsed "error" with
          | some e => if jsFalsy e then requestFailedMessage response.status else jsToString e
          | none => requestFailedMessage response.status)
       | none => requestFailedMessage response.status) := by
    unfold parseResponse
    rw [hok]
    rfl
  refine ⟨?_, ?_, ?_, ?_, ?_, ?_⟩
  · rw [hstep _ herr]
  · intro p s hp hperr hs
    rw [hstep _ herr, hp]
    show (match jsGet p "error" with
          | some e => if jsFalsy e = true then requestFailedMessage response.status
                      else jsToString e
          | none => requestFailedMessage response.status) = s
    rw [hperr]
    show (if jsFalsy (.str s) = true then requestFailedMessage response.status
      else jsToString (.str s)) = s
    rw [if_neg (by simpa [jsFalsy] using hs)]
    rfl
  · intro hp
    rw [hstep _ herr, hp]
  · intro p hp hperr
    rw [hstep _ herr, hp]
    show (match jsGet p "error" with
          | some e => if jsFalsy e = true then requestFailedMessage response.status
                      else jsToString e
          | none => requestFailedMessage response.status) = requestFailedMessage response.status
    rw [hperr]
  · intro p e hp hperr hf
    rw [hstep _ herr, hp]
    show (match jsGet p "error" with
          | some e => if jsFalsy e = true then requestFailedMessage response.status
                      else jsToString e
          | none => requestFailedMessage response.status) = requestFailedMessage response.status
    rw [hperr]
    show (if jsFalsy e = true then requestFailedMessage response.status else jsToString e)
      = requestFailedMessage response.status
    rw [if_pos hf]
  · intro p e hp hperr hf
    rw [hstep _ herr, hp]
    show (match jsGet p "error" with
          | some e => if jsFalsy e = true then requestFailedMessage response.status
                      else jsToString e
          | none => requestFailedMessage response.status) = jsToString e
    rw [hperr]
    show (if jsFalsy e = true then requestFailedMessage response.status else jsToString e)
      = jsToString e
    rw [if_neg (by rw [hf]; exact Bool.false_ne_true)]

/-- Witness for the amended C9, the spec's end-to-end scenario: HTTP 500
with body `\x7b"error": "transcription failed"\x7d` surfaces exactly
`"transcription failed"`, as error-typed feedback. -/
theorem claim_C9_error_surfacing_witness :
    (handleLessonUpload
      (fun s => if s = "\x7b\"error\": \"transcription failed\"\x7d"
        then some (.obj [("error", .str "transcription failed")]) else none)
      1 ⟨false, 500, "\x7b\"error\": \"transcription failed\"\x7d"⟩).1.message
      = "transcription failed" ∧
    (handleLessonUpload
      (fun s => if s = "\x7b\"error\": \"transcription failed\"\x7d"
        then some (.obj [("error", .str "transcription failed")]) else none)
      1 ⟨false, 500, "\x7b\"error\": \"transcription failed\"\x7d"⟩).1.type
      = .error := by
  obtain ⟨htype, hstr, -, -, -, -⟩ := claim_C9_error_surfacing
    (fun s => if s = "\x7b\"error\": \"transcription failed\"\x7d"
      then some (.obj [("error", .str "transcription failed")]) else none)
    1 ⟨false, 500, "\x7b\"error\": \"transcription failed\"\x7d"⟩ rfl
  exact ⟨hstr (.obj [("error", .str "transcription failed")]) "transcription failed"
    (by rw [if_pos rfl]) rfl (by decide), htype⟩

end TeacherAI
